import Mathlib

/-
  Verification development for the client-side diagnostics orchestrator
  (dev-diagnostics.js) of the gameflix-app repository.

  The script runs four checks (page protocol, localhost port probing,
  external IP fetch, navigator online state), renders messages to a shared
  on-page panel, and emits heuristic summary messages. We embed the
  orchestrator shallowly: the outside world (location.protocol, the
  resolution of each underlying fetch, navigator.onLine) is an explicit
  environment, and each check is a pure function of that environment.
  Panel rendering is modelled as the ordered list of messages appended by
  addMessage (level and title text; the accompanying HTML detail blocks are
  rendering-only and are not modelled).
-/

namespace DevDiagnostics

/-- The JSON body consumed by the external check; only the `ip` field is
read (`json.ip` in the source), which may be absent. -/
structure JsonBody where
  ip : Option String
deriving Repr, DecidableEq

/-- Outcome of `res.json()` on a response: a parsed body or a parse error. -/
inductive JsonOutcome where
  | ok (body : JsonBody)
  | err (msg : String)
deriving Repr, DecidableEq

/-- An HTTP response as far as the diagnostics code can observe it: a
status and the outcome of parsing its body as JSON. The source never reads
the status (`res.ok` / `res.status` are not consulted). -/
structure Response where
  status : Nat
  json : JsonOutcome
deriving Repr, DecidableEq

/-- Resolution of a fetch as seen by a caller: a response or a rejection
message (network error, abort, or the wrapper timeout message). -/
inductive FetchOutcome where
  | ok (res : Response)
  | err (msg : String)
deriving Repr, DecidableEq

/-- Whether a fetch outcome is a resolution (not a rejection). -/
def FetchOutcome.succeeded : FetchOutcome → Bool
  | .ok _ => true
  | .err _ => false

/-- An underlying fetch together with the time (ms) at which it settles. -/
structure TimedFetch where
  time : Nat
  outcome : FetchOutcome
deriving Repr, DecidableEq

/-- The options object passed to `fetch`. The source never attaches an
`AbortSignal` to any request, so `signal` is `none` at every call site. -/
structure RequestOptions where
  method : Option String := none
  mode : Option String := none
  cache : Option String := none
  signal : Option Unit := none
deriving Repr, DecidableEq

/-- `fetchWithTimeout(url, timeoutMs, options)` forwards `options` to
`fetch` unchanged: it builds no `AbortController` and adds no signal. -/
def fetchRequestOptions (opts : RequestOptions) : RequestOptions := opts

/-- `fetchWithTimeout`: a timer rejects the wrapping promise with
the message `timeout` after `timeoutMs`; if the underlying fetch settles
first, the timer is cleared and its outcome is passed through. The
underlying request itself is never cancelled; only the wrapper settles
early. (At an exact tie we let the timer win; nothing below depends on
the tie-break.) -/
def fetchWithTimeout (f : TimedFetch) (timeoutMs : Nat) : TimedFetch :=
  if f.time < timeoutMs then f else ⟨timeoutMs, .err "timeout"⟩

/-- Configuration constants of dev-diagnostics.js. -/
def LOCAL_PORTS : List Nat := [5500, 3000, 8080]

def LOCAL_PATH : String := "/"

def EXTERNAL_IP_URL : String := "https://api.ipify.org?format=json"

/-- ms for the external fetch. -/
def EXTERNAL_TIMEOUT : Nat := 4000

/-- ms per localhost port check. -/
def LOCAL_TIMEOUT : Nat := 2000

/-- The URL probed for a local port (with the cache-busting query). -/
def localProbeUrl (port : Nat) (now : Nat) : String :=
  "http://localhost:" ++ toString port ++ LOCAL_PATH ++ "?_dev_diag=" ++ toString now

/-- Options used by the local port probes: GET in no-cors mode. -/
def localProbeOptions : RequestOptions :=
  { method := some "GET", mode := some "no-cors" }

/-- Options used by the external IP fetch. -/
def externalProbeOptions : RequestOptions :=
  { cache := some "no-store" }

/-- Options used by the example.com reachability probe. -/
def adapterProbeOptions : RequestOptions :=
  { method := some "HEAD", mode := some "no-cors" }

/-- The outside world as the orchestrator observes it in one run:
`location.protocol`, the settlement of the underlying fetch for each local
port, for the external IP request, and for the example.com HEAD request,
plus `navigator.onLine`. -/
structure Env where
  protocol : String
  portFetch : Nat → TimedFetch
  externalFetch : TimedFetch
  onLine : Bool
  exampleFetch : TimedFetch

/-- One entry of the `results` array built by `checkLocalServers`:
`{ port, ok: true }` on resolution, `{ port, ok: false, info: err.message }`
on rejection. -/
structure PortResult where
  port : Nat
  ok : Bool
  info : Option String
deriving Repr, DecidableEq

/-- Return value of `checkExternalConnectivity`: `{ ok: true, ip: json.ip }`
or `{ ok: false, error: err.message }`. -/
structure ExternalResult where
  ok : Bool
  ip : Option String
  error : Option String
deriving Repr, DecidableEq

/-- Return value of `checkNetworkAdapter`: `{ online: false }`,
`{ online: true, check: ok }` or `{ online: true, check: failed }`. -/
structure AdapterResult where
  online : Bool
  check : Option String
deriving Repr, DecidableEq

/-- A panel row appended by `addMessage(level, text, moreHtml)`; the
`moreHtml` detail block is presentation-only and not modelled. -/
structure Message where
  level : String
  text : String
deriving Repr, DecidableEq

/-- The body of the port loop in `checkLocalServers`: one bounded probe,
with a rejection caught and recorded on that port alone. -/
def probePort (env : Env) (port : Nat) : PortResult :=
  match (fetchWithTimeout (env.portFetch port) LOCAL_TIMEOUT).outcome with
  | .ok _ => ⟨port, true, none⟩
  | .err msg => ⟨port, false, some msg⟩

/-- The port loop of `checkLocalServers`, over an arbitrary port list. -/
def checkLocalServersOn (env : Env) (ports : List Nat) : List PortResult :=
  ports.map (probePort env)

/-- `checkLocalServers`: iterates over the configured `LOCAL_PORTS`. -/
def checkLocalServers (env : Env) : List PortResult :=
  checkLocalServersOn env LOCAL_PORTS

/-- The body of `checkExternalConnectivity` as a function of the underlying
external fetch: one bounded fetch of the external IP URL; the try block
also covers `res.json()`, so a fetch rejection and a JSON parse failure
both land in the catch. The response status is never read. -/
def externalResultOf (f : TimedFetch) : ExternalResult :=
  match (fetchWithTimeout f EXTERNAL_TIMEOUT).outcome with
  | .ok res =>
    match res.json with
    | .ok body => ⟨true, body.ip, none⟩
    | .err msg => ⟨false, none, some msg⟩
  | .err msg => ⟨false, none, some msg⟩

/-- `checkExternalConnectivity` reads only the external fetch. -/
def checkExternalConnectivity (env : Env) : ExternalResult :=
  externalResultOf env.externalFetch

/-- `checkNetworkAdapter`: returns `{ online: false }` at once when
`navigator.onLine` is false; otherwise performs the one example.com HEAD
probe (3000 ms bound) and annotates the online result with its outcome. -/
def checkNetworkAdapter (env : Env) : AdapterResult :=
  if env.onLine then
    match (fetchWithTimeout env.exampleFetch 3000).outcome with
    | .ok _ => ⟨true, some "ok"⟩
    | .err _ => ⟨true, some "failed"⟩
  else ⟨false, none⟩

-- Panel messages, named after the titles passed to addMessage.

def startingMsg : Message := ⟨"info", "Starting diagnostics"⟩

/-- The single message emitted by `checkFileProtocol`. -/
def protocolMsg (protocol : String) : Message :=
  if protocol = "file:" then ⟨"warn", "Page loaded via file:// (local file)."⟩
  else ⟨"info", "Page opened over " ++ protocol⟩

def checkingLocalMsg : Message :=
  ⟨"info", "Checking local dev servers (ports: "
    ++ String.intercalate ", " (LOCAL_PORTS.map toString) ++ ")"⟩

def localDetectedMsg : Message := ⟨"info", "Local dev server detected"⟩

def localNotDetectedMsg : Message := ⟨"warn", "No local dev server detected"⟩

/-- Summary message after the port loop: `up = results.filter(r => r.ok)`
and the branch is on `up.length > 0`. -/
def localSummaryMsg (results : List PortResult) : Message :=
  if 0 < (results.filter (fun r => r.ok)).length then localDetectedMsg
  else localNotDetectedMsg

def checkingExternalMsg : Message := ⟨"info", "Checking external connectivity..."⟩

def externalOkMsg : Message := ⟨"info", "External connectivity OK"⟩

def externalFailMsg : Message := ⟨"warn", "Unable to fetch external IP"⟩

def offlineMsg : Message := ⟨"error", "Network appears offline"⟩

def adapterOnlineMsg : Message := ⟨"info", "Network adapter: online"⟩

def connectivityTestFailedMsg : Message := ⟨"warn", "Connectivity test failed"⟩

/-- Heuristic finding for file origin with no responding port. -/
def fileOriginFindingMsg : Message := ⟨"warn", "Likely cause: file:// + no dev server"⟩

/-- Heuristic finding for local server up but external fetch failing. -/
def proxyFindingMsg : Message := ⟨"warn", "Pattern: local server OK but external fetch fails"⟩

/-- Heuristic finding for the adapter reporting offline. -/
def offlineFindingMsg : Message := ⟨"error", "Network offline — reconnect required"⟩

/-- Messages appended by `checkExternalConnectivity`, in order. -/
def checkExternalConnectivityMsgs (env : Env) : List Message :=
  checkingExternalMsg ::
    (if (checkExternalConnectivity env).ok then [externalOkMsg] else [externalFailMsg])

/-- Messages appended by `checkNetworkAdapter`, in order. -/
def checkNetworkAdapterMsgs (env : Env) : List Message :=
  if env.onLine then
    adapterOnlineMsg ::
      (if ((fetchWithTimeout env.exampleFetch 3000).outcome).succeeded then []
       else [connectivityTestFailedMsg])
  else [offlineMsg]

/-- The heuristic summary block of `runAllChecks`: three independent
conditions, mirroring `localResults.every(r => !r.ok)` and
`localResults.some(r => r.ok)`. -/
def heuristicMsgs (protocol : String) (localResults : List PortResult)
    (external : ExternalResult) (net : AdapterResult) : List Message :=
  (if (protocol == "file:") && localResults.all (fun r => !r.ok)
   then [fileOriginFindingMsg] else [])
  ++ (if (!external.ok) && localResults.any (fun r => r.ok)
      then [proxyFindingMsg] else [])
  ++ (if !net.online then [offlineFindingMsg] else [])

/-- Panel messages appended before the first await point of `runAllChecks`
(the probe of the first local port): the start banner, the synchronous
protocol check and the port-probing banner. -/
def msgsPrefixRun (env : Env) : List Message :=
  [startingMsg, protocolMsg env.protocol, checkingLocalMsg]

/-- Panel messages appended after the first await point of `runAllChecks`:
the local summary, the external check, the adapter check and the heuristic
summaries. -/
def msgsSuffixRun (env : Env) : List Message :=
  localSummaryMsg (checkLocalServers env) ::
    (checkExternalConnectivityMsgs env
     ++ checkNetworkAdapterMsgs env
     ++ heuristicMsgs env.protocol (checkLocalServers env)
          (checkExternalConnectivity env) (checkNetworkAdapter env))

/-- The observables of one completed `runAllChecks` invocation: the three
result values it computes and the ordered panel messages it appends. (The
JS function itself returns undefined; the results are only rendered and
logged.) -/
structure RunOutput where
  localResults : List PortResult
  external : ExternalResult
  net : AdapterResult
  messages : List Message
deriving Repr, DecidableEq

/-- `runAllChecks`: protocol check, port loop, external check, adapter
check, then the heuristic summaries, appending messages in source order. -/
def runAllChecks (env : Env) : RunOutput :=
  { localResults := checkLocalServers env
    external := checkExternalConnectivity env
    net := checkNetworkAdapter env
    messages := msgsPrefixRun env ++ msgsSuffixRun env }

/-- An operation on the shared messages container of the panel:
`addMessage` appends a row; the `Run checks again` handler sets
`innerHTML` to the empty string, clearing it. The container is a single DOM element reused
by every run (`ensurePanel` returns the same panel once created). -/
inductive PanelEv where
  | append (m : Message)
  | clear
deriving Repr, DecidableEq

/-- Effect of one panel operation on the container contents. -/
def applyPanelEv (panel : List Message) : PanelEv → List Message
  | .append m => panel ++ [m]
  | .clear => []

/-- Container contents after a sequence of panel operations, starting
from the freshly created (empty) messages container. -/
def panelAfter (evs : List PanelEv) : List Message :=
  evs.foldl applyPanelEv []

/-- One admissible event-loop schedule when `Run checks again` is clicked
while the first run is suspended at its first port-probe await: run 1
appends its pre-await messages; the click handler clears the container and
starts run 2; run 2 runs to completion; the pending probe of run 1 then
settles and run 1 resumes, appending its remaining messages to the same
container (addMessage looks the shared panel up again on every call). -/
def staleRerunSchedule (env1 env2 : Env) : List PanelEv :=
  (msgsPrefixRun env1).map PanelEv.append
    ++ [PanelEv.clear]
    ++ (runAllChecks env2).messages.map PanelEv.append
    ++ (msgsSuffixRun env1).map PanelEv.append

/-- Modelled from the spec: the configuration record of the
`runDiagnostics(config)` contract in section 4.1, with the overridable
fields that have concrete defaults there. The source script has no such
parameter; this record exists only to compare the contract of the spec with the
code. -/
structure SpecConfig where
  localPorts : List Nat
  localPath : String
  perPortTimeoutMs : Nat
  externalTimeoutMs : Nat
deriving Repr, DecidableEq

/-- Modelled from the spec: the defaults the spec states for the
configuration (ports {5500, 3000, 8080}, path `/`, 2000 ms per port,
4000 ms external). -/
def specDefaultConfig : SpecConfig :=
  ⟨[5500, 3000, 8080], "/", 2000, 4000⟩

/-- Replace the HTTP status of the response carried by a settled fetch,
leaving the settlement time and body untouched. Used to state that the
external check never inspects the status. -/
def withStatus (f : TimedFetch) (s : Nat) : TimedFetch :=
  match f.outcome with
  | .ok res => ⟨f.time, .ok ⟨s, res.json⟩⟩
  | .err e => ⟨f.time, .err e⟩

-- Concrete fixtures used to instantiate the theorems below.

/-- A 200 response whose body parses with an ip field. -/
def okResponse : Response := ⟨200, .ok ⟨some "203.0.113.45"⟩⟩

/-- An underlying fetch that resolves quickly. -/
def fastOk : TimedFetch := ⟨100, .ok okResponse⟩

/-- An underlying fetch that resolves only after every configured timeout
has elapsed, so every wrapper observes a timeout rejection. -/
def slowOk : TimedFetch := ⟨10000, .ok okResponse⟩

/-- An underlying fetch that rejects quickly with a connection error. -/
def refused : TimedFetch := ⟨50, .err "Failed to fetch"⟩

/-- file: page, every port down, external and example reachable, online. -/
def envFileAllDown : Env :=
  ⟨"file:", fun _ => refused, fastOk, true, fastOk⟩

/-- http: page, port 5500 responding, other ports down, external probe
timing out, adapter online. -/
def envPortUpExternalDown : Env :=
  ⟨"http:", fun p => if p = 5500 then fastOk else refused, slowOk, true, fastOk⟩

/-- http: page, every port down, external reachable, adapter online. -/
def envHttpAllDown : Env :=
  ⟨"http:", fun _ => refused, fastOk, true, fastOk⟩

/-- https: page, every network operation failing: ports refused, external
fetch timing out, example.com probe refused, adapter online. -/
def envAllFailing : Env :=
  ⟨"https:", fun _ => refused, slowOk, true, refused⟩

/-- https: page, external fetch resolving with a body that fails to parse
as JSON. -/
def envParseFailure : Env :=
  ⟨"https:", fun _ => refused, ⟨100, .ok ⟨500, .err "SyntaxError: Unexpected token"⟩⟩, true, fastOk⟩

/-- http: page, external fetch resolving with HTTP status 500 whose body
still parses as JSON with an ip field. -/
def envStatus500 : Env :=
  ⟨"http:", fun _ => refused, ⟨100, .ok ⟨500, .ok ⟨some "203.0.113.45"⟩⟩⟩, true, fastOk⟩

/-- Adapter reported offline; every probe would succeed if attempted. -/
def envOffline : Env :=
  ⟨"http:", fun _ => fastOk, fastOk, false, fastOk⟩

/-- Every underlying fetch resolves, but only after the configured
timeouts have elapsed. -/
def envSlowPorts : Env :=
  ⟨"http:", fun _ => slowOk, slowOk, true, fastOk⟩

-- ---------------------------------------------------------------------
-- Helper lemmas
-- ---------------------------------------------------------------------

lemma mem_ite_singleton {c : Prop} [Decidable c] (m x : Message) :
    m ∈ (if c then [x] else ([] : List Message)) ↔ c ∧ m = x := by
  split <;> simp_all

lemma probePort_port (env : Env) (p : Nat) : (probePort env p).port = p := by
  unfold probePort
  split <;> rfl

lemma checkLocalServersOn_map_port (env : Env) (ports : List Nat) :
    (checkLocalServersOn env ports).map PortResult.port = ports := by
  induction ports with
  | nil => rfl
  | cons p ps ih =>
    simp only [checkLocalServersOn, List.map_cons] at *
    rw [probePort_port, ih]

lemma runAllChecks_localResults (env : Env) :
    (runAllChecks env).localResults = checkLocalServers env := rfl

lemma runAllChecks_external (env : Env) :
    (runAllChecks env).external = checkExternalConnectivity env := rfl

lemma runAllChecks_net (env : Env) :
    (runAllChecks env).net = checkNetworkAdapter env := rfl

lemma runAllChecks_messages (env : Env) :
    (runAllChecks env).messages = msgsPrefixRun env ++ msgsSuffixRun env := rfl

lemma fileOriginFindingMsg_ne_protocolMsg (p : String) :
    fileOriginFindingMsg ≠ protocolMsg p := by
  unfold protocolMsg
  split
  · decide
  · intro h
    exact (by decide : fileOriginFindingMsg.level ≠ "info") (congrArg Message.level h)

lemma fileOriginFindingMsg_ne_localSummaryMsg (rs : List PortResult) :
    fileOriginFindingMsg ≠ localSummaryMsg rs := by
  unfold localSummaryMsg
  split <;> decide

lemma fileOriginFindingMsg_not_mem_external (env : Env) :
    fileOriginFindingMsg ∉ checkExternalConnectivityMsgs env := by
  unfold checkExternalConnectivityMsgs
  split <;> decide

lemma fileOriginFindingMsg_not_mem_adapter (env : Env) :
    fileOriginFindingMsg ∉ checkNetworkAdapterMsgs env := by
  unfold checkNetworkAdapterMsgs
  split
  · split <;> decide
  · decide

lemma fileOriginFindingMsg_mem_heuristic (protocol : String)
    (lrs : List PortResult) (ext : ExternalResult) (net : AdapterResult) :
    fileOriginFindingMsg ∈ heuristicMsgs protocol lrs ext net ↔
      ((protocol == "file:") && lrs.all (fun r => !r.ok)) = true := by
  have h1 : fileOriginFindingMsg ≠ proxyFindingMsg := by decide
  have h2 : fileOriginFindingMsg ≠ offlineFindingMsg := by decide
  unfold heuristicMsgs
  simp [mem_ite_singleton, h1, h2]

lemma fileOriginFindingMsg_mem_run_iff (env : Env) :
    fileOriginFindingMsg ∈ (runAllChecks env).messages ↔
      ((env.protocol == "file:") && (checkLocalServers env).all (fun r => !r.ok)) = true := by
  have h1 : fileOriginFindingMsg ≠ startingMsg := by decide
  have h2 : fileOriginFindingMsg ≠ checkingLocalMsg := by decide
  rw [runAllChecks_messages]
  unfold msgsPrefixRun msgsSuffixRun
  simp [h1, h2, fileOriginFindingMsg_ne_protocolMsg,
    fileOriginFindingMsg_ne_localSummaryMsg,
    fileOriginFindingMsg_not_mem_external,
    fileOriginFindingMsg_not_mem_adapter,
    fileOriginFindingMsg_mem_heuristic]

-- ---------------------------------------------------------------------
-- C1 and C2
-- ---------------------------------------------------------------------

/-- C1: the heuristic finding for a file-origin page with no dev server
(panel title "Likely cause: file:// + no dev server") is emitted iff the
page protocol is `file:` and every local-port result in the run has
`ok: false`; it is never emitted under any other combination. -/
theorem c1_file_origin_finding_iff (env : Env) :
    fileOriginFindingMsg ∈ (runAllChecks env).messages ↔
      (env.protocol = "file:" ∧
        ∀ r ∈ (runAllChecks env).localResults, r.ok = false) := by
  rw [fileOriginFindingMsg_mem_run_iff, runAllChecks_localResults]
  simp [List.all_eq_true]

/-- Witness for C1: in a run on a `file:` page where every port probe is
refused, the file-origin finding is emitted. -/
theorem c1_witness :
    fileOriginFindingMsg ∈ (runAllChecks envFileAllDown).messages :=
  (c1_file_origin_finding_iff envFileAllDown).mpr ⟨rfl, by decide⟩

/-- C2: for every port list, the port loop produces exactly one result per
port, in order — so the number of local-port results equals the length of
the configured list however many probes fail — and a completed run carries
results for the whole configured `LOCAL_PORTS` list. -/
theorem c2_port_probing_exhaustive (env : Env) (ports : List Nat) :
    (checkLocalServersOn env ports).map PortResult.port = ports ∧
    (checkLocalServersOn env ports).length = ports.length ∧
    (runAllChecks env).localResults.map PortResult.port = LOCAL_PORTS := by
  refine ⟨checkLocalServersOn_map_port env ports, ?_,
    checkLocalServersOn_map_port env LOCAL_PORTS⟩
  simp [checkLocalServersOn]

lemma proxyFindingMsg_ne_protocolMsg (p : String) :
    proxyFindingMsg ≠ protocolMsg p := by
  unfold protocolMsg
  split
  · decide
  · intro h
    exact (by decide : proxyFindingMsg.level ≠ "info") (congrArg Message.level h)

lemma proxyFindingMsg_ne_localSummaryMsg (rs : List PortResult) :
    proxyFindingMsg ≠ localSummaryMsg rs := by
  unfold localSummaryMsg
  split <;> decide

lemma proxyFindingMsg_not_mem_external (env : Env) :
    proxyFindingMsg ∉ checkExternalConnectivityMsgs env := by
  unfold checkExternalConnectivityMsgs
  split <;> decide

lemma proxyFindingMsg_not_mem_adapter (env : Env) :
    proxyFindingMsg ∉ checkNetworkAdapterMsgs env := by
  unfold checkNetworkAdapterMsgs
  split
  · split <;> decide
  · decide

lemma proxyFindingMsg_mem_heuristic (protocol : String)
    (lrs : List PortResult) (ext : ExternalResult) (net : AdapterResult) :
    proxyFindingMsg ∈ heuristicMsgs protocol lrs ext net ↔
      ((!ext.ok) && lrs.any (fun r => r.ok)) = true := by
  have h1 : proxyFindingMsg ≠ fileOriginFindingMsg := by decide
  have h2 : proxyFindingMsg ≠ offlineFindingMsg := by decide
  unfold heuristicMsgs
  simp [mem_ite_singleton, h1, h2]

lemma proxyFindingMsg_mem_run_iff (env : Env) :
    proxyFindingMsg ∈ (runAllChecks env).messages ↔
      ((!(checkExternalConnectivity env).ok)
        && (checkLocalServers env).any (fun r => r.ok)) = true := by
  have h1 : proxyFindingMsg ≠ startingMsg := by decide
  have h2 : proxyFindingMsg ≠ checkingLocalMsg := by decide
  rw [runAllChecks_messages]
  unfold msgsPrefixRun msgsSuffixRun
  simp [h1, h2, proxyFindingMsg_ne_protocolMsg,
    proxyFindingMsg_ne_localSummaryMsg,
    proxyFindingMsg_not_mem_external,
    proxyFindingMsg_not_mem_adapter,
    proxyFindingMsg_mem_heuristic]

-- ---------------------------------------------------------------------
-- C4 and C10
-- ---------------------------------------------------------------------

/-- C4: whenever the external connectivity probe fails and at least one
local-port result has `ok: true`, the run emits the proxy/VPN/firewall
finding (panel title "Pattern: local server OK but external fetch fails"). -/
theorem c4_proxy_finding_emitted (env : Env)
    (hext : (runAllChecks env).external.ok = false)
    (hloc : ∃ r ∈ (runAllChecks env).localResults, r.ok = true) :
    proxyFindingMsg ∈ (runAllChecks env).messages := by
  rw [proxyFindingMsg_mem_run_iff]
  rw [runAllChecks_external] at hext
  rw [runAllChecks_localResults] at hloc
  simp [hext, List.any_eq_true]
  exact hloc

/-- Witness for C4, the scenario from the spec: on an `http:` page with port 5500
responding, the external probe timing out and the adapter online, the
proxy-blocked finding is emitted and the file-origin finding is absent. -/
theorem c4_witness :
    proxyFindingMsg ∈ (runAllChecks envPortUpExternalDown).messages ∧
    fileOriginFindingMsg ∉ (runAllChecks envPortUpExternalDown).messages := by
  refine ⟨c4_proxy_finding_emitted envPortUpExternalDown (by decide) ?_, by decide⟩
  exact ⟨⟨5500, true, none⟩, by decide, rfl⟩

/-- C10: in no run are the file-origin finding and the proxy-blocked
finding both emitted: the first requires every local-port result to fail
while the second requires one to succeed. -/
theorem c10_findings_mutually_exclusive (env : Env) :
    (decide (fileOriginFindingMsg ∈ (runAllChecks env).messages)
      && decide (proxyFindingMsg ∈ (runAllChecks env).messages)) = false := by
  by_cases hf : fileOriginFindingMsg ∈ (runAllChecks env).messages
  · by_cases hp : proxyFindingMsg ∈ (runAllChecks env).messages
    · exfalso
      rw [fileOriginFindingMsg_mem_run_iff] at hf
      rw [proxyFindingMsg_mem_run_iff] at hp
      simp only [Bool.and_eq_true, List.all_eq_true, List.any_eq_true] at hf hp
      obtain ⟨r, hr, hok⟩ := hp.2
      have := hf.2 r hr
      simp [hok] at this
    · simp [hp]
  · simp [hf]

-- ---------------------------------------------------------------------
-- C3, C5 and C9
-- ---------------------------------------------------------------------

/-- C3: every failure of a network operation is recovered at the single
check that produced it. A rejected port probe yields exactly that single
result with `ok: false` and the message as detail; a rejected or
unparseable external fetch yields an external result with `ok: false` and
the message; a failing adapter probe yields `check: failed`; and in every
environment the run still completes with the protocol message, one result
per configured port, and the external and adapter results (which the run
record carries by construction). -/
theorem c3_failures_recovered_locally (env : Env) :
    (∀ p ∈ LOCAL_PORTS, ∀ e,
        (fetchWithTimeout (env.portFetch p) LOCAL_TIMEOUT).outcome = .err e →
        (⟨p, false, some e⟩ : PortResult) ∈ (runAllChecks env).localResults) ∧
    (∀ e, (fetchWithTimeout env.externalFetch EXTERNAL_TIMEOUT).outcome = .err e →
        (runAllChecks env).external = ⟨false, none, some e⟩) ∧
    (∀ res e, (fetchWithTimeout env.externalFetch EXTERNAL_TIMEOUT).outcome = .ok res →
        res.json = .err e →
        (runAllChecks env).external = ⟨false, none, some e⟩) ∧
    (∀ e, env.onLine = true →
        (fetchWithTimeout env.exampleFetch 3000).outcome = .err e →
        (runAllChecks env).net = ⟨true, some "failed"⟩) ∧
    protocolMsg env.protocol ∈ (runAllChecks env).messages ∧
    (runAllChecks env).localResults.map PortResult.port = LOCAL_PORTS := by
  refine ⟨?_, ?_, ?_, ?_, ?_, checkLocalServersOn_map_port env LOCAL_PORTS⟩
  · intro p hp e he
    have hres : probePort env p = ⟨p, false, some e⟩ := by
      unfold probePort
      rw [he]
    rw [runAllChecks_localResults]
    unfold checkLocalServers checkLocalServersOn
    rw [← hres]
    exact List.mem_map_of_mem (probePort env) hp
  · intro e he
    rw [runAllChecks_external]
    simp [checkExternalConnectivity, externalResultOf, he]
  · intro res e h1 h2
    rw [runAllChecks_external]
    simp [checkExternalConnectivity, externalResultOf, h1, h2]
  · intro e hon he
    rw [runAllChecks_net]
    simp [checkNetworkAdapter, hon, he]
  · rw [runAllChecks_messages]
    unfold msgsPrefixRun
    simp

/-- Witness for C3: with every port refused, the external fetch timing out
(in one environment) or failing to parse (in another), and the example.com
probe refused, each failure is captured locally and the run is complete. -/
theorem c3_witness :
    (⟨5500, false, some "Failed to fetch"⟩ : PortResult)
      ∈ (runAllChecks envAllFailing).localResults ∧
    (runAllChecks envAllFailing).external = ⟨false, none, some "timeout"⟩ ∧
    (runAllChecks envParseFailure).external
      = ⟨false, none, some "SyntaxError: Unexpected token"⟩ ∧
    (runAllChecks envAllFailing).net = ⟨true, some "failed"⟩ ∧
    protocolMsg "https:" ∈ (runAllChecks envAllFailing).messages := by
  refine ⟨(c3_failures_recovered_locally envAllFailing).1 5500 (by decide)
      "Failed to fetch" (by decide),
    (c3_failures_recovered_locally envAllFailing).2.1 "timeout" (by decide),
    (c3_failures_recovered_locally envParseFailure).2.2.1
      ⟨500, .err "SyntaxError: Unexpected token"⟩
      "SyntaxError: Unexpected token" (by decide) rfl,
    (c3_failures_recovered_locally envAllFailing).2.2.2.1
      "Failed to fetch" rfl (by decide),
    (c3_failures_recovered_locally envAllFailing).2.2.2.2.1⟩

/-- C5: when the adapter reports offline, the network-adapter check
short-circuits to `{online: false}` and is independent of the supplementary
probe (no probe outcome can change it); when it reports online, the one
supplementary probe is consulted and its failure is recorded as
`check: failed` while `online` stays true. -/
theorem c5_adapter_short_circuit (env : Env) :
    (env.onLine = false →
      checkNetworkAdapter env = ⟨false, none⟩ ∧
      ∀ x, checkNetworkAdapter { env with exampleFetch := x } = ⟨false, none⟩) ∧
    (env.onLine = true →
      checkNetworkAdapter env =
        ⟨true, some (if ((fetchWithTimeout env.exampleFetch 3000).outcome).succeeded
          then "ok" else "failed")⟩ ∧
      ∀ e, (fetchWithTimeout env.exampleFetch 3000).outcome = .err e →
        checkNetworkAdapter env = ⟨true, some "failed"⟩) ∧
    (runAllChecks env).net = checkNetworkAdapter env := by
  refine ⟨fun hoff => ⟨?_, fun x => ?_⟩, fun hon => ⟨?_, fun e he => ?_⟩, rfl⟩
  · simp [checkNetworkAdapter, hoff]
  · simp [checkNetworkAdapter, hoff]
  · rcases h : (fetchWithTimeout env.exampleFetch 3000).outcome with res | msg <;>
      simp [checkNetworkAdapter, hon, h, FetchOutcome.succeeded]
  · simp [checkNetworkAdapter, hon, he]

/-- Witness for C5: an offline adapter short-circuits to `{online: false}`;
an online adapter whose example.com probe is refused yields
`{online: true, check: failed}`. -/
theorem c5_witness :
    checkNetworkAdapter envOffline = ⟨false, none⟩ ∧
    checkNetworkAdapter envAllFailing = ⟨true, some "failed"⟩ :=
  ⟨((c5_adapter_short_circuit envOffline).1 rfl).1,
    ((c5_adapter_short_circuit envAllFailing).2.1 rfl).2 "Failed to fetch" (by decide)⟩

lemma externalResultOf_withStatus (f : TimedFetch) (s : Nat) :
    externalResultOf (withStatus f s) = externalResultOf f := by
  rcases f with ⟨t, o⟩
  cases o with
  | ok res =>
    unfold withStatus externalResultOf fetchWithTimeout
    by_cases h : t < EXTERNAL_TIMEOUT <;> simp [h]
  | err e => rfl

/-- C9: the external check never inspects the HTTP status: whenever the
fetch settles in time with a body that parses as JSON, the result is
`ok: true` with the (possibly absent) ip of the body — changing the response
status never changes the result — and `ok: false` holds exactly when the
bounded fetch rejected or the body failed to parse. -/
theorem c9_external_ignores_status (env : Env) :
    (∀ res body,
        (fetchWithTimeout env.externalFetch EXTERNAL_TIMEOUT).outcome = .ok res →
        res.json = .ok body →
        checkExternalConnectivity env = ⟨true, body.ip, none⟩) ∧
    (∀ s, checkExternalConnectivity { env with externalFetch := withStatus env.externalFetch s }
        = checkExternalConnectivity env) ∧
    ((checkExternalConnectivity env).ok = false ↔
      (∃ e, (fetchWithTimeout env.externalFetch EXTERNAL_TIMEOUT).outcome = .err e) ∨
      (∃ res e, (fetchWithTimeout env.externalFetch EXTERNAL_TIMEOUT).outcome = .ok res ∧
        res.json = .err e)) := by
  refine ⟨?_, ?_, ?_⟩
  · intro res body h1 h2
    simp [checkExternalConnectivity, externalResultOf, h1, h2]
  · intro s
    exact externalResultOf_withStatus env.externalFetch s
  · rcases h : (fetchWithTimeout env.externalFetch EXTERNAL_TIMEOUT).outcome with res | msg
    · rcases hj : res.json with body | e <;>
        simp [checkExternalConnectivity, externalResultOf, h, hj]
    · simp [checkExternalConnectivity, externalResultOf, h]

/-- Witness for C9: an HTTP 500 response whose body still parses as JSON
yields `ok: true` with the ip. -/
theorem c9_witness :
    checkExternalConnectivity envStatus500 = ⟨true, some "203.0.113.45", none⟩ ∧
    envStatus500.externalFetch.outcome = .ok ⟨500, .ok ⟨some "203.0.113.45"⟩⟩ :=
  ⟨(c9_external_ignores_status envStatus500).1 ⟨500, .ok ⟨some "203.0.113.45"⟩⟩
      ⟨some "203.0.113.45"⟩ (by decide) rfl,
    by decide⟩

-- ---------------------------------------------------------------------
-- C6: the panel under a rerun with a still-pending previous-run probe
-- ---------------------------------------------------------------------

lemma foldl_applyPanelEv_appends (acc : List Message) (xs : List Message)
    (rest : List PanelEv) :
    List.foldl applyPanelEv acc (xs.map PanelEv.append ++ rest)
      = List.foldl applyPanelEv (acc ++ xs) rest := by
  induction xs generalizing acc with
  | nil => simp
  | cons x xs ih =>
    simp only [List.map_cons, List.cons_append, List.foldl_cons, applyPanelEv]
    rw [ih]
    simp

lemma foldl_applyPanelEv_append_only (acc : List Message) (xs : List Message) :
    List.foldl applyPanelEv acc (xs.map PanelEv.append) = acc ++ xs := by
  have h := foldl_applyPanelEv_appends acc xs []
  simpa using h

/-- C6 counterexample: starting a rerun while the first run is suspended at
its first port probe does NOT leave the results of exactly one run in the panel.
Run 1 sees port 5500 responding, run 2 sees every port down; under the
admissible schedule `staleRerunSchedule` the panel ends up containing the
late "Local dev server detected" result of the superseded run next to the
"No local dev server detected" result of the new run, so the stale write is
not discarded and the panel differs from the message list of the new run. -/
theorem c6_counterexample :
    localDetectedMsg ∈ panelAfter (staleRerunSchedule envPortUpExternalDown envHttpAllDown) ∧
    localNotDetectedMsg ∈ panelAfter (staleRerunSchedule envPortUpExternalDown envHttpAllDown) ∧
    panelAfter (staleRerunSchedule envPortUpExternalDown envHttpAllDown)
      ≠ (runAllChecks envHttpAllDown).messages := by
  refine ⟨by decide, by decide, by decide⟩

/-- C6 amended: the messages container is a single element shared by all
runs and stale writes are not keyed or discarded — under the stale-rerun
schedule the final panel is the full message list of the new run followed by
every message the superseded run appends after it resumes. -/
theorem c6_amended_stale_writes_kept (env1 env2 : Env) :
    panelAfter (staleRerunSchedule env1 env2)
      = (runAllChecks env2).messages ++ msgsSuffixRun env1 := by
  unfold panelAfter staleRerunSchedule
  simp only [List.append_assoc]
  rw [foldl_applyPanelEv_appends]
  simp only [List.cons_append, List.nil_append, List.foldl_cons, applyPanelEv]
  rw [foldl_applyPanelEv_appends, foldl_applyPanelEv_append_only]
  simp

-- ---------------------------------------------------------------------
-- C7: timeout bounding without request cancellation
-- ---------------------------------------------------------------------

/-- C7 counterexample: no probe request carries an abort signal —
`fetchWithTimeout` forwards the given options to `fetch` unchanged and
every call site passes options with no signal — and when the timer fires
the wrapper merely rejects with `timeout` while the underlying request
continues to its own resolution, so cancellation is not achieved via a
dedicated abort signal. -/
theorem c7_counterexample :
    (fetchRequestOptions localProbeOptions).signal = none ∧
    (fetchRequestOptions externalProbeOptions).signal = none ∧
    (fetchRequestOptions adapterProbeOptions).signal = none ∧
    (fetchWithTimeout slowOk LOCAL_TIMEOUT).outcome = .err "timeout" ∧
    slowOk.outcome = .ok okResponse :=
  ⟨rfl, rfl, rfl, by decide, rfl⟩

/-- C7 amended: the wait of every probe is bounded by its configured timeout —
the wrapper settles no later than `timeoutMs`, and once the timeout
elapses the probe is treated as failed: a slow port probe is recorded as
`ok: false` with detail `timeout` (per-port bound `LOCAL_TIMEOUT`) and a
slow external fetch as an external failure (bound `EXTERNAL_TIMEOUT`).
But no abort signal is attached to any request: the timer only rejects the
wrapping promise and the in-flight request is not cancelled. -/
theorem c7_amended_timeout_bounds (env : Env) (p : Nat) (f : TimedFetch) (t : Nat) :
    (fetchWithTimeout f t).time ≤ t ∧
    (t ≤ f.time → (fetchWithTimeout f t).outcome = .err "timeout") ∧
    (LOCAL_TIMEOUT ≤ (env.portFetch p).time →
      probePort env p = ⟨p, false, some "timeout"⟩) ∧
    (EXTERNAL_TIMEOUT ≤ env.externalFetch.time →
      checkExternalConnectivity env = ⟨false, none, some "timeout"⟩) ∧
    localProbeOptions.signal = none ∧
    externalProbeOptions.signal = none ∧
    adapterProbeOptions.signal = none := by
  refine ⟨?_, ?_, ?_, ?_, rfl, rfl, rfl⟩
  · unfold fetchWithTimeout
    split
    · omega
    · exact Nat.le_refl t
  · intro h
    unfold fetchWithTimeout
    rw [if_neg (Nat.not_lt.mpr h)]
  · intro h
    unfold probePort fetchWithTimeout
    rw [if_neg (Nat.not_lt.mpr h)]
  · intro h
    unfold checkExternalConnectivity externalResultOf fetchWithTimeout
    rw [if_neg (Nat.not_lt.mpr h)]

/-- Witness for the amended C7 at a concrete slow environment: the wrapper
settles at the timeout with a `timeout` rejection, the slow port probe is
marked failed, and the slow external fetch is recorded as failed. -/
theorem c7_witness :
    (fetchWithTimeout slowOk 2000).time ≤ 2000 ∧
    (fetchWithTimeout slowOk 2000).outcome = .err "timeout" ∧
    probePort envSlowPorts 5500 = ⟨5500, false, some "timeout"⟩ ∧
    checkExternalConnectivity envSlowPorts = ⟨false, none, some "timeout"⟩ :=
  ⟨(c7_amended_timeout_bounds envSlowPorts 5500 slowOk 2000).1,
    (c7_amended_timeout_bounds envSlowPorts 5500 slowOk 2000).2.1 (by decide),
    (c7_amended_timeout_bounds envSlowPorts 5500 slowOk 2000).2.2.1 (by decide),
    (c7_amended_timeout_bounds envSlowPorts 5500 slowOk 2000).2.2.2.1 (by decide)⟩

-- ---------------------------------------------------------------------
-- C8: entry-point contract versus the hardcoded configuration
-- ---------------------------------------------------------------------

/-- C8 counterexample: the orchestrator accepts no configuration — a
spec-level config supplying localPorts = [9999] cannot change the run,
which probes exactly the hardcoded [5500, 3000, 8080] in every
environment, so supplied values are never used in place of the defaults. -/
theorem c8_counterexample :
    ({ specDefaultConfig with localPorts := [9999] } : SpecConfig).localPorts = [9999] ∧
    (runAllChecks envHttpAllDown).localResults.map PortResult.port = [5500, 3000, 8080] ∧
    (runAllChecks envHttpAllDown).localResults.map PortResult.port ≠ [9999] :=
  ⟨rfl, by decide, by decide⟩

/-- C8 amended: the entry point `runAllChecks()` takes no configuration;
its constants are fixed and equal to the defaults the spec lists
(ports [5500, 3000, 8080], path `/`, 2000 ms per port, 4000 ms external),
and every run probes exactly that fixed port list. The JS entry point
returns no DiagnosticsRun value — results are only rendered and logged. -/
theorem c8_amended_fixed_configuration (env : Env) :
    (runAllChecks env).localResults.map PortResult.port = LOCAL_PORTS ∧
    LOCAL_PORTS = specDefaultConfig.localPorts ∧
    LOCAL_PATH = specDefaultConfig.localPath ∧
    LOCAL_TIMEOUT = specDefaultConfig.perPortTimeoutMs ∧
    EXTERNAL_TIMEOUT = specDefaultConfig.externalTimeoutMs :=
  ⟨checkLocalServersOn_map_port env LOCAL_PORTS, rfl, rfl, rfl, rfl⟩

end DevDiagnostics
